import Mathlib

/-!
Verification of the vessel anomaly-detection and alerting engine
(`x1.py` of the repository): per-vessel sliding history, the three
anomaly rules (speed drop, course change, drift), danger scoring, and
the per-vessel alert cooldown.

Modelling conventions:
* Python numbers are embedded as exact rationals (`ℚ`); `navStat` is an
  integer code.
* `haversine` computes a transcendental expression (sin, cos, atan2), so
  the anomaly detector is parametrised by the distance function
  `dist : ℚ → ℚ → ℚ → ℚ → ℚ`; every theorem about the drift rule holds
  for an arbitrary `dist`, hence in particular for the haversine
  distance.
* The two module-level dicts `vessel_location_history` and
  `last_alert_times` become the two fields of `SysState`; a dict is a
  total function, with `Option` marking absent keys (Python reads
  `last_alert_times.get(mmsi, 0)`, embedded as `(la mmsi).getD 0`).
* `time.time()` (the wall clock read inside `send_alert`) is passed in
  explicitly as the parameter `now`.
* Logging is the only side effect besides state update; an emitted alert
  is represented by returning `some` alert record.
-/

/-- One decoded position report (the `current_data` dict built in
`on_message`, after the payload defaults have been applied). -/
structure Report where
  time : ℚ
  sog : ℚ
  cog : ℚ
  navStat : ℤ
  lat : ℚ
  lon : ℚ
  deriving DecidableEq, Repr

/-- `Config.SPEED_DROP_THRESHOLD_PERCENT = 50`. -/
def SPEED_DROP_THRESHOLD_PERCENT : ℚ := 50

/-- `Config.COURSE_CHANGE_THRESHOLD_DEG = 45`. -/
def COURSE_CHANGE_THRESHOLD_DEG : ℚ := 45

/-- `Config.DRIFT_SPEED_THRESHOLD = 0.5`. -/
def DRIFT_SPEED_THRESHOLD : ℚ := 1/2

/-- `Config.VESSEL_HISTORY_LENGTH = 5`. -/
def VESSEL_HISTORY_LENGTH : ℕ := 5

/-- `Config.ALERT_COOLDOWN_MINUTES = 10`. -/
def ALERT_COOLDOWN_MINUTES : ℚ := 10

/-- `cooldown = Config.ALERT_COOLDOWN_MINUTES * 60` as computed in
`send_alert`. -/
def cooldownSeconds : ℚ := ALERT_COOLDOWN_MINUTES * 60

/-- The `Config.DANGER_LEVELS` lookup table. -/
def DANGER_LEVELS (n : ℕ) : String :=
  if n = 1 then "Low"
  else if n = 2 then "Medium"
  else if n = 3 then "High"
  else if n = 4 then "Critical"
  else ""

/-- The per-kind weights `danger_scores` in `calculate_danger_level`;
`danger_scores.get(a, 0)` yields `0` for an unknown kind. -/
def danger_score (a : String) : ℕ :=
  if a = "speed_drop" then 1
  else if a = "course_change" then 2
  else if a = "drifting" then 3
  else 0

/-- `calculate_danger_level`: sum the weights of the listed anomalies and
map the total through the cascaded thresholds. -/
def calculate_danger_level (anomalies : List String) : ℕ × String :=
  let total_score := (anomalies.map danger_score).sum
  if 4 ≤ total_score then (4, DANGER_LEVELS 4)
  else if 3 ≤ total_score then (3, DANGER_LEVELS 3)
  else if 2 ≤ total_score then (2, DANGER_LEVELS 2)
  else (1, DANGER_LEVELS 1)

/-- Python's `%` on non-negative floats with a positive divisor:
`a - b * ⌊a / b⌋`. -/
def qmod (a b : ℚ) : ℚ := a - b * ⌊a / b⌋

/-- `normalize_course_diff`: minimal circular difference of two courses,
`diff = abs(cog1 - cog2) % 360`, folded into `[0, 180]`. -/
def normalize_course_diff (cog1 cog2 : ℚ) : ℚ :=
  let diff := qmod |cog1 - cog2| 360
  if diff ≤ 180 then diff else 360 - diff

/-- The structured alert record built by `send_alert` (the fields the
log sink receives that the engine itself computes; the positional /
map-link presentation is pure formatting of the report fields). -/
structure AlertData where
  vessel_id : String
  timestamp : ℚ
  danger_score : ℕ
  danger_label : String
  indicators : List String
  deriving DecidableEq, Repr

/-- The `alert_data` record assembled in `send_alert`. -/
def build_alert (mmsi : String) (anomalies : List String) (ts : ℚ) : AlertData :=
  { vessel_id := mmsi
    timestamp := ts
    danger_score := (calculate_danger_level anomalies).1
    danger_label := (calculate_danger_level anomalies).2
    indicators := anomalies }

/-- `send_alert`: emit iff `now - last_alert_times.get(mmsi, 0) >= 600`;
on emission record `last_alert_times[mmsi] = now`, on suppression leave
the cooldown map untouched.  Returns the emitted record (if any) and the
updated cooldown map. -/
def send_alert (la : String → Option ℚ) (mmsi : String)
    (anomalies : List String) (ts now : ℚ) :
    Option AlertData × (String → Option ℚ) :=
  if cooldownSeconds ≤ now - ((la mmsi).getD 0) then
    (some (build_alert mmsi anomalies ts),
     fun v => if v = mmsi then some now else la v)
  else
    (none, la)

/-- The anomaly list computed by `check_for_anomalies`: the two guards
(`navStat != 0`, `time_diff <= 0`) return early with no anomalies;
otherwise the three rules are evaluated independently, in source order.
`dist` stands for the `haversine` function (see the module docstring). -/
def detect_anomalies (dist : ℚ → ℚ → ℚ → ℚ → ℚ)
    (current previous : Report) : List String :=
  if current.navStat ≠ 0 then []
  else if current.time - previous.time ≤ 0 then []
  else
    (if 0 < previous.sog ∧
        SPEED_DROP_THRESHOLD_PERCENT ≤
          (previous.sog - current.sog) / previous.sog * 100 then
      ["speed_drop"] else []) ++
    (if COURSE_CHANGE_THRESHOLD_DEG ≤
        normalize_course_diff current.cog previous.cog then
      ["course_change"] else []) ++
    (if current.sog = 0 ∧ previous.sog = 0 ∧
        DRIFT_SPEED_THRESHOLD <
          dist previous.lat previous.lon current.lat current.lon /
            (current.time - previous.time) then
      ["drifting"] else [])

/-- `check_for_anomalies` together with its hand-off to `send_alert`:
returns the anomaly list, the emitted alert (if any), and the updated
cooldown map.  When the anomaly list is empty `send_alert` is not
called and the cooldown map is untouched. -/
def check_for_anomalies (dist : ℚ → ℚ → ℚ → ℚ → ℚ)
    (la : String → Option ℚ) (mmsi : String)
    (current previous : Report) (now : ℚ) :
    List String × Option AlertData × (String → Option ℚ) :=
  let anomalies := detect_anomalies dist current previous
  if anomalies = [] then (anomalies, none, la)
  else
    let res := send_alert la mmsi anomalies current.time now
    (anomalies, res.1, res.2)

/-- Python's built-in `round` on an exact value: round to the nearest
integer, ties to the even integer. -/
def py_round_int (x : ℚ) : ℤ :=
  let f := ⌊x⌋
  let r := x - f
  if r < 1/2 then f
  else if 1/2 < r then f + 1
  else if f % 2 = 0 then f else f + 1

/-- `round(x, 6)`: round to 6 decimal places. -/
def round6 (x : ℚ) : ℚ := (py_round_int (x * 1000000) : ℚ) / 1000000

/-- One append to a `deque(maxlen=5)`: add on the right, evict from the
left whenever the capacity is exceeded. -/
def history_append (h : List Report) (r : Report) : List Report :=
  let h2 := h ++ [r]
  if VESSEL_HISTORY_LENGTH < h2.length then
    h2.drop (h2.length - VESSEL_HISTORY_LENGTH)
  else h2

/-- The module-level mutable state: `vessel_location_history` and
`last_alert_times`. -/
structure SysState where
  history : String → List Report
  lastAlert : String → Option ℚ

/-- Observable outcome of processing one message: the new state, the
report pair handed to `check_for_anomalies` (if evaluation ran at all),
the anomaly list it produced, and the emitted alert (if any). -/
structure StepResult where
  state : SysState
  evaluated : Option (Report × Report)
  anomalies : List String
  alert : Option AlertData

/-- The core of `on_message`, after payload decoding and topic parsing:
validate the coordinates (rejecting the report outright when out of
range), round `lat`/`lon` to 6 decimals, append to the vessel's
history, and — once at least two reports are retained — run
`check_for_anomalies` on `(current_data, history[-2])`. -/
def process_report (dist : ℚ → ℚ → ℚ → ℚ → ℚ) (s : SysState)
    (mmsi : String) (r : Report) (now : ℚ) : StepResult :=
  if -90 ≤ r.lat ∧ r.lat ≤ 90 ∧ -180 ≤ r.lon ∧ r.lon ≤ 180 then
    let current : Report := { r with lat := round6 r.lat, lon := round6 r.lon }
    let h := history_append (s.history mmsi) current
    let s1 : SysState :=
      { s with history := fun v => if v = mmsi then h else s.history v }
    if h2 : 2 ≤ h.length then
      let prev := h.get ⟨h.length - 2, by omega⟩
      let res := check_for_anomalies dist s1.lastAlert mmsi current prev now
      { state := { s1 with lastAlert := res.2.2 }
        evaluated := some (current, prev)
        anomalies := res.1
        alert := res.2.1 }
    else
      { state := s1, evaluated := none, anomalies := [], alert := none }
  else
    { state := s, evaluated := none, anomalies := [], alert := none }

/-- Repeated calls to `send_alert` for one vessel, one per qualifying
anomaly event, returning the times at which an alert was actually
emitted (models a sequence of anomaly evaluations all reaching
`send_alert`). -/
def run_alerts (mmsi : String) (la : String → Option ℚ) :
    List ℚ → List ℚ
  | [] => []
  | t :: ts =>
    let res := send_alert la mmsi ["drifting"] t t
    (if res.1.isSome then [t] else []) ++ run_alerts mmsi res.2 ts

/-- A vessel id used for concrete witnesses. -/
def vA : String := "230123250"

/-- A second vessel id used for concrete witnesses. -/
def vB : String := "230994270"

/-- A trivial distance function used as a concrete instance of the
`dist` parameter. -/
def distZero : ℚ → ℚ → ℚ → ℚ → ℚ := fun _ _ _ _ => 0

/-- A constant distance function: every pair of positions is 600 m
apart (concrete instance for the drift rule). -/
def dist600 : ℚ → ℚ → ℚ → ℚ → ℚ := fun _ _ _ _ => 600

/-- A constant distance function: every pair of positions is 400 m
apart (concrete instance for the drift rule). -/
def dist400 : ℚ → ℚ → ℚ → ℚ → ℚ := fun _ _ _ _ => 400

/-- The empty initial state (no vessel seen, no alert sent). -/
def initState : SysState := { history := fun _ => [], lastAlert := fun _ => none }

/-- A concrete previous report for witnesses. -/
def prevR : Report :=
  { time := 1000, sog := 10, cog := 10, navStat := 0, lat := 60, lon := 25 }

/-- A concrete current report for witnesses. -/
def currR : Report :=
  { time := 2000, sog := 4, cog := 60, navStat := 0, lat := 60, lon := 25 }

/-- A concrete pair of stopped reports for the drift witnesses. -/
def prevStopR : Report :=
  { time := 1000, sog := 0, cog := 0, navStat := 0, lat := 60, lon := 25 }

/-- The matching current stopped report, 1000 s later. -/
def currStopR : Report :=
  { time := 2000, sog := 0, cog := 0, navStat := 0, lat := 60, lon := 25 }

/-- A concrete report with an out-of-range latitude. -/
def badLatR : Report :=
  { time := 3000, sog := 5, cog := 90, navStat := 0, lat := 95, lon := 25 }

/-- The report as stored into history by `on_message`: coordinates
rounded to 6 decimal places. -/
def stored_report (r : Report) : Report :=
  { r with lat := round6 r.lat, lon := round6 r.lon }

/-! ## Helper lemmas -/

theorem qmod_nonneg (a b : ℚ) (hb : 0 < b) : 0 ≤ qmod a b := by
  have h := Int.floor_le (a / b)
  have h2 : b * (⌊a / b⌋ : ℚ) ≤ b * (a / b) :=
    mul_le_mul_of_nonneg_left h (le_of_lt hb)
  have h3 : b * (a / b) = a := by field_simp
  unfold qmod
  linarith

theorem qmod_lt (a b : ℚ) (hb : 0 < b) : qmod a b < b := by
  have h := Int.lt_floor_add_one (a / b)
  have h2 : b * (a / b) < b * ((⌊a / b⌋ : ℚ) + 1) :=
    mul_lt_mul_of_pos_left h hb
  have h3 : b * (a / b) = a := by field_simp
  unfold qmod
  nlinarith

theorem send_alert_apply_ne (la : String → Option ℚ) (mmsi : String)
    (an : List String) (ts now : ℚ) (v : String) (hv : v ≠ mmsi) :
    (send_alert la mmsi an ts now).2 v = la v := by
  unfold send_alert
  split
  · simp [hv]
  · rfl

theorem check_for_anomalies_apply_ne (dist : ℚ → ℚ → ℚ → ℚ → ℚ)
    (la : String → Option ℚ) (mmsi : String) (current previous : Report)
    (now : ℚ) (v : String) (hv : v ≠ mmsi) :
    (check_for_anomalies dist la mmsi current previous now).2.2 v = la v := by
  unfold check_for_anomalies
  dsimp only
  split
  · rfl
  · exact send_alert_apply_ne la mmsi _ _ now v hv

theorem detect_anomalies_guard (dist : ℚ → ℚ → ℚ → ℚ → ℚ)
    (current previous : Report)
    (h : current.navStat ≠ 0 ∨ current.time - previous.time ≤ 0) :
    detect_anomalies dist current previous = [] := by
  unfold detect_anomalies
  rcases h with h | h
  · rw [if_pos h]
  · by_cases hn : current.navStat ≠ 0
    · rw [if_pos hn]
    · rw [if_neg hn, if_pos h]

theorem run_alerts_cons (mmsi : String) (la : String → Option ℚ)
    (t : ℚ) (ts : List ℚ) :
    run_alerts mmsi la (t :: ts) =
      (if (send_alert la mmsi ["drifting"] t t).1.isSome then [t] else []) ++
        run_alerts mmsi (send_alert la mmsi ["drifting"] t t).2 ts := rfl

theorem run_alerts_pairwise_aux (mmsi : String) (ts : List ℚ) :
    ∀ la : String → Option ℚ,
      List.Pairwise (fun a b => a + 600 ≤ b) (run_alerts mmsi la ts) ∧
      ∀ t ∈ run_alerts mmsi la ts, (la mmsi).getD 0 + 600 ≤ t := by
  induction ts with
  | nil => intro la; simp [run_alerts]
  | cons t ts ih =>
    intro la
    by_cases hc : cooldownSeconds ≤ t - (la mmsi).getD 0
    · have hla : (send_alert la mmsi ["drifting"] t t).2 =
          fun v => if v = mmsi then some t else la v := by
        unfold send_alert
        rw [if_pos hc]
      have hfst : (send_alert la mmsi ["drifting"] t t).1.isSome = true := by
        unfold send_alert
        rw [if_pos hc]
        rfl
      have ihx := ih ((send_alert la mmsi ["drifting"] t t).2)
      have hgetD : (((send_alert la mmsi ["drifting"] t t).2) mmsi).getD 0 = t := by
        rw [hla]; simp
      have hcool : cooldownSeconds = 600 := by
        norm_num [cooldownSeconds, ALERT_COOLDOWN_MINUTES]
      rw [hcool] at hc
      rw [run_alerts_cons, hfst]
      simp only [if_true, List.singleton_append, List.pairwise_cons,
        List.mem_cons]
      refine ⟨⟨fun b hb => ?_, ihx.1⟩, fun x hx => ?_⟩
      · have := ihx.2 b hb
        rw [hgetD] at this
        linarith
      · rcases hx with rfl | hx
        · linarith
        · have := ihx.2 x hx
          rw [hgetD] at this
          linarith
    · have hla : (send_alert la mmsi ["drifting"] t t).2 = la := by
        unfold send_alert
        rw [if_neg hc]
      have hfst : (send_alert la mmsi ["drifting"] t t).1.isSome = false := by
        unfold send_alert
        rw [if_neg hc]
        rfl
      have hrun : run_alerts mmsi la (t :: ts) = run_alerts mmsi la ts := by
        rw [run_alerts_cons, hfst, hla]
        simp
      rw [hrun]
      exact ih la

/-! ## Claims -/

/-- C9: `normalize_course_diff` is symmetric and lies in `[0, 180]` for
courses in `[0, 360)`, and handles wrap-around correctly:
`normalize_course_diff 350 10 = 20` (not 340),
`normalize_course_diff 10 350 = 20`, and
`normalize_course_diff 0 180 = 180`. -/
theorem claim_C9_course_diff (c1 c2 : ℚ)
    (h1 : 0 ≤ c1) (h2 : c1 < 360) (h3 : 0 ≤ c2) (h4 : c2 < 360) :
    normalize_course_diff c1 c2 = normalize_course_diff c2 c1 ∧
    0 ≤ normalize_course_diff c1 c2 ∧
    normalize_course_diff c1 c2 ≤ 180 ∧
    normalize_course_diff 350 10 = 20 ∧
    normalize_course_diff 10 350 = 20 ∧
    normalize_course_diff 0 180 = 180 := by
  have h0 : (0:ℚ) < 360 := by norm_num
  have hq0 := qmod_nonneg |c1 - c2| 360 h0
  have hqlt := qmod_lt |c1 - c2| 360 h0
  refine ⟨?_, ?_, ?_, ?_, ?_, ?_⟩
  · simp only [normalize_course_diff]
    rw [abs_sub_comm]
  · simp only [normalize_course_diff]
    split_ifs with hd
    · exact hq0
    · linarith
  · simp only [normalize_course_diff]
    split_ifs with hd
    · exact hd
    · linarith
  · norm_num [normalize_course_diff, qmod]
  · norm_num [normalize_course_diff, qmod]
  · norm_num [normalize_course_diff, qmod]

/-- Closed instance of C9 at `c1 = 350`, `c2 = 10`. -/
theorem claim_C9_course_diff_witness :
    normalize_course_diff 350 10 = normalize_course_diff 10 350 ∧
    0 ≤ normalize_course_diff 350 10 ∧
    normalize_course_diff 350 10 ≤ 180 ∧
    normalize_course_diff 350 10 = 20 := by
  have h := claim_C9_course_diff 350 10 (by norm_num) (by norm_num)
    (by norm_num) (by norm_num)
  exact ⟨h.1, h.2.1, h.2.2.1, h.2.2.2.1⟩

/-- C6: `calculate_danger_level` is pure and maps the summed weights
(speed_drop 1, course_change 2, drifting 3) through the cascade
`≥4 ↦ (4, Critical)`, `≥3 ↦ (3, High)`, `≥2 ↦ (2, Medium)`,
else `(1, Low)`; in particular `{course_change, drifting}` gives
`(4, Critical)`, `{speed_drop}` gives `(1, Low)`, and
`{speed_drop, course_change}` gives `(3, High)`. -/
theorem claim_C6_danger_level :
    (∀ anomalies : List String,
      (4 ≤ (anomalies.map danger_score).sum →
        calculate_danger_level anomalies = (4, "Critical")) ∧
      ((anomalies.map danger_score).sum = 3 →
        calculate_danger_level anomalies = (3, "High")) ∧
      ((anomalies.map danger_score).sum = 2 →
        calculate_danger_level anomalies = (2, "Medium")) ∧
      ((anomalies.map danger_score).sum ≤ 1 →
        calculate_danger_level anomalies = (1, "Low"))) ∧
    calculate_danger_level ["course_change", "drifting"] = (4, "Critical") ∧
    calculate_danger_level ["speed_drop"] = (1, "Low") ∧
    calculate_danger_level ["speed_drop", "course_change"] = (3, "High") := by
  refine ⟨fun anomalies => ⟨?_, ?_, ?_, ?_⟩, ?_, ?_, ?_⟩
  · intro h
    simp only [calculate_danger_level]
    rw [if_pos h]
    simp [DANGER_LEVELS]
  · intro h
    simp only [calculate_danger_level]
    rw [if_neg (by omega), if_pos (by omega)]
    simp [DANGER_LEVELS]
  · intro h
    simp only [calculate_danger_level]
    rw [if_neg (by omega), if_neg (by omega), if_pos (by omega)]
    simp [DANGER_LEVELS]
  · intro h
    simp only [calculate_danger_level]
    rw [if_neg (by omega), if_neg (by omega), if_neg (by omega)]
    simp [DANGER_LEVELS]
  · simp [calculate_danger_level, danger_score, DANGER_LEVELS]
  · simp [calculate_danger_level, danger_score, DANGER_LEVELS]
  · simp [calculate_danger_level, danger_score, DANGER_LEVELS]

/-- Closed instance of C6: a lone drift anomaly scores 3, "High". -/
theorem claim_C6_danger_level_witness :
    calculate_danger_level ["drifting"] = (3, "High") :=
  (claim_C6_danger_level.1 ["drifting"]).2.1 (by simp [danger_score])

/-- C2: when `current.navStat ≠ 0` or the time delta is non-positive,
`check_for_anomalies` produces an empty anomaly set, emits no alert,
and leaves the cooldown map unchanged, regardless of all other
fields. -/
theorem claim_C2_guards (dist : ℚ → ℚ → ℚ → ℚ → ℚ)
    (la : String → Option ℚ) (mmsi : String)
    (current previous : Report) (now : ℚ)
    (h : current.navStat ≠ 0 ∨ current.time - previous.time ≤ 0) :
    check_for_anomalies dist la mmsi current previous now = ([], none, la) := by
  have hd := detect_anomalies_guard dist current previous h
  simp [check_for_anomalies, hd]

/-- Closed instance of C2: a report with `navStat = 1`. -/
theorem claim_C2_guards_witness :
    check_for_anomalies distZero (fun _ => none) vA
      { currR with navStat := 1 } prevR 2000 = ([], none, fun _ => none) :=
  claim_C2_guards distZero (fun _ => none) vA
    { currR with navStat := 1 } prevR 2000 (Or.inl (by decide))

/-- C3: past the guards, `speed_drop` is detected iff
`previous.sog > 0` and the percentage drop
`(previous.sog - current.sog) / previous.sog * 100` is at least 50;
a zero previous speed or a speed rise never triggers the rule. -/
theorem claim_C3_speed_drop (dist : ℚ → ℚ → ℚ → ℚ → ℚ)
    (current previous : Report) (hnav : current.navStat = 0)
    (htime : previous.time < current.time) :
    "speed_drop" ∈ detect_anomalies dist current previous ↔
      0 < previous.sog ∧
        50 ≤ (previous.sog - current.sog) / previous.sog * 100 := by
  have h1 : ¬ current.navStat ≠ 0 := by simp [hnav]
  have h2 : ¬ current.time - previous.time ≤ 0 := by linarith
  unfold detect_anomalies
  rw [if_neg h1, if_neg h2]
  split_ifs with hs hc hd <;>
    simp_all [SPEED_DROP_THRESHOLD_PERCENT]

/-- Closed instances of C3: a 60 % drop (10 → 4 kn) triggers, a 40 %
drop (10 → 6 kn) does not. -/
theorem claim_C3_speed_drop_witness :
    ("speed_drop" ∈ detect_anomalies distZero currR prevR) ∧
    "speed_drop" ∉ detect_anomalies distZero { currR with sog := 6 } prevR := by
  constructor
  · exact (claim_C3_speed_drop distZero currR prevR rfl
      (by norm_num [currR, prevR])).mpr (by norm_num [currR, prevR])
  · intro hmem
    have h := (claim_C3_speed_drop distZero { currR with sog := 6 } prevR rfl
      (by norm_num [currR, prevR])).mp hmem
    norm_num [currR, prevR] at h

/-- C4: past the guards, `course_change` is detected iff the minimal
circular course difference is at least 45°, with no dependence on the
speed-drop rule (no hypothesis on any speed). -/
theorem claim_C4_course_change (dist : ℚ → ℚ → ℚ → ℚ → ℚ)
    (current previous : Report) (hnav : current.navStat = 0)
    (htime : previous.time < current.time) :
    "course_change" ∈ detect_anomalies dist current previous ↔
      45 ≤ normalize_course_diff current.cog previous.cog := by
  have h1 : ¬ current.navStat ≠ 0 := by simp [hnav]
  have h2 : ¬ current.time - previous.time ≤ 0 := by linarith
  unfold detect_anomalies
  rw [if_neg h1, if_neg h2]
  split_ifs with hs hc hd <;>
    simp_all [COURSE_CHANGE_THRESHOLD_DEG]

/-- Closed instances of C4: course 10° → 60° (Δ = 50) triggers,
10° → 40° (Δ = 30) does not. -/
theorem claim_C4_course_change_witness :
    ("course_change" ∈ detect_anomalies distZero currR prevR) ∧
    "course_change" ∉ detect_anomalies distZero { currR with cog := 40 } prevR := by
  constructor
  · exact (claim_C4_course_change distZero currR prevR rfl
      (by norm_num [currR, prevR])).mpr
      (by norm_num [currR, prevR, normalize_course_diff, qmod])
  · intro hmem
    have h := (claim_C4_course_change distZero { currR with cog := 40 } prevR rfl
      (by norm_num [currR, prevR])).mp hmem
    norm_num [currR, prevR, normalize_course_diff, qmod] at h

/-- C5: past the guards, `drifting` is detected iff both speeds are
zero and the reported distance divided by the elapsed time exceeds
0.5 m/s; the statement is universal in the distance function, hence
holds for the haversine distance in particular. -/
theorem claim_C5_drifting (dist : ℚ → ℚ → ℚ → ℚ → ℚ)
    (current previous : Report) (hnav : current.navStat = 0)
    (htime : previous.time < current.time) :
    "drifting" ∈ detect_anomalies dist current previous ↔
      current.sog = 0 ∧ previous.sog = 0 ∧
        1/2 < dist previous.lat previous.lon current.lat current.lon /
          (current.time - previous.time) := by
  have h1 : ¬ current.navStat ≠ 0 := by simp [hnav]
  have h2 : ¬ current.time - previous.time ≤ 0 := by linarith
  unfold detect_anomalies
  rw [if_neg h1, if_neg h2]
  split_ifs with hs hc hd <;>
    simp_all [DRIFT_SPEED_THRESHOLD]

/-- Closed instances of C5: 600 m over 1000 s (0.6 m/s) triggers,
400 m over 1000 s (0.4 m/s) does not. -/
theorem claim_C5_drifting_witness :
    ("drifting" ∈ detect_anomalies dist600 currStopR prevStopR) ∧
    "drifting" ∉ detect_anomalies dist400 currStopR prevStopR := by
  constructor
  · exact (claim_C5_drifting dist600 currStopR prevStopR rfl
      (by norm_num [currStopR, prevStopR])).mpr
      (by norm_num [currStopR, prevStopR, dist600])
  · intro hmem
    have h := (claim_C5_drifting dist400 currStopR prevStopR rfl
      (by norm_num [currStopR, prevStopR])).mp hmem
    norm_num [currStopR, prevStopR, dist400] at h

/-- The appended report is always the most recent element of the
history. -/
theorem history_append_getLast (h : List Report) (r : Report) :
    (history_append h r).getLast? = some r := by
  unfold history_append VESSEL_HISTORY_LENGTH
  dsimp only
  split_ifs with hgt
  · rw [List.drop_append_of_le_length (by simp at hgt ⊢ <;> omega)]
    exact List.getLast?_concat _
  · exact List.getLast?_concat h

/-- C1: `send_alert` emits iff `now - lastAlertTime(vesselId) ≥ 600`
(`lastAlertTime` defaulting to 0); on emission the vessel's timestamp
becomes `now` and other vessels are untouched, on suppression the map
is unchanged; consecutive emitted alert times for one vessel are
pairwise at least 600 s apart; qualifying events at times 1000 and 1060
emit exactly one alert, at 1000 and 1700 two. -/
theorem claim_C1_cooldown :
    (∀ (la : String → Option ℚ) (mmsi : String) (an : List String)
        (ts now : ℚ),
      ((send_alert la mmsi an ts now).1.isSome = true ↔
        600 ≤ now - (la mmsi).getD 0) ∧
      (600 ≤ now - (la mmsi).getD 0 →
        (send_alert la mmsi an ts now).2 mmsi = some now ∧
        ∀ v, v ≠ mmsi → (send_alert la mmsi an ts now).2 v = la v) ∧
      (¬ 600 ≤ now - (la mmsi).getD 0 →
        (send_alert la mmsi an ts now).2 = la)) ∧
    (∀ (mmsi : String) (la : String → Option ℚ) (ts : List ℚ),
      List.Pairwise (fun a b => a + 600 ≤ b) (run_alerts mmsi la ts)) ∧
    run_alerts vA (fun _ => none) [1000, 1060] = [1000] ∧
    run_alerts vA (fun _ => none) [1000, 1700] = [1000, 1700] := by
  have hcool : cooldownSeconds = 600 := by
    norm_num [cooldownSeconds, ALERT_COOLDOWN_MINUTES]
  refine ⟨fun la mmsi an ts now => ⟨?_, ?_, ?_⟩, ?_, ?_, ?_⟩
  · unfold send_alert
    rw [hcool]
    split_ifs with h <;> simp [h]
  · intro h
    unfold send_alert
    rw [hcool, if_pos h]
    exact ⟨by simp, fun v hv => by simp [hv]⟩
  · intro h
    unfold send_alert
    rw [hcool, if_neg h]
  · intro mmsi la ts
    exact (run_alerts_pairwise_aux mmsi ts la).1
  · simp [run_alerts, send_alert, cooldownSeconds, ALERT_COOLDOWN_MINUTES]
    norm_num
  · simp [run_alerts, send_alert, cooldownSeconds, ALERT_COOLDOWN_MINUTES]
    norm_num

/-- Closed instance of C1 at a fresh state and `now = 1000`. -/
theorem claim_C1_cooldown_witness :
    (send_alert (fun _ => none) vA ["drifting"] 1000 1000).1.isSome = true ∧
    (send_alert (fun _ => none) vA ["drifting"] 1000 1000).2 vA = some 1000 := by
  have h := claim_C1_cooldown.1 (fun _ => none) vA ["drifting"] 1000 1000
  exact ⟨h.1.mpr (by norm_num), (h.2.1 (by norm_num)).1⟩

/-- C7: a vessel's history holds at most 5 reports in arrival order; an
append to a full history evicts exactly the oldest entry; 7 successive
appends retain exactly the 5 most recent reports; anomaly evaluation
runs only once at least two reports are retained, and always on the
pair (most recent, second most recent) of the retained window. -/
theorem claim_C7_history :
    (∀ (h : List Report) (r : Report), h.length ≤ 5 →
      (history_append h r).length ≤ 5) ∧
    (∀ (h : List Report) (r : Report), h.length = 5 →
      history_append h r = h.tail ++ [r]) ∧
    (∀ r1 r2 r3 r4 r5 r6 r7 : Report,
      List.foldl history_append [] [r1, r2, r3, r4, r5, r6, r7] =
        [r3, r4, r5, r6, r7]) ∧
    (∀ (dist : ℚ → ℚ → ℚ → ℚ → ℚ) (s : SysState) (mmsi : String)
        (r : Report) (now : ℚ),
      (-90 ≤ r.lat ∧ r.lat ≤ 90 ∧ -180 ≤ r.lon ∧ r.lon ≤ 180) →
      (process_report dist s mmsi r now).state.history mmsi =
        history_append (s.history mmsi) (stored_report r) ∧
      (∀ hl : (history_append (s.history mmsi) (stored_report r)).length - 2 <
          (history_append (s.history mmsi) (stored_report r)).length,
        2 ≤ (history_append (s.history mmsi) (stored_report r)).length →
        (process_report dist s mmsi r now).evaluated =
          some (stored_report r,
            (history_append (s.history mmsi) (stored_report r)).get
              ⟨(history_append (s.history mmsi) (stored_report r)).length - 2,
                hl⟩)) ∧
      ((history_append (s.history mmsi) (stored_report r)).length < 2 →
        (process_report dist s mmsi r now).evaluated = none)) := by
  refine ⟨?_, ?_, ?_, ?_⟩
  · intro h r hlen
    unfold history_append VESSEL_HISTORY_LENGTH
    dsimp only
    split_ifs with hgt
    · simp
      omega
    · simp at hgt ⊢
      omega
  · intro h r hlen
    unfold history_append VESSEL_HISTORY_LENGTH
    dsimp only
    have hk : (h ++ [r]).length - 5 = 1 := by simp [hlen]
    rw [if_pos (by simp [hlen]), hk,
      List.drop_append_of_le_length (by omega), List.drop_one]
  · intro r1 r2 r3 r4 r5 r6 r7
    simp [history_append, VESSEL_HISTORY_LENGTH]
  · intro dist s mmsi r now hvalid
    unfold process_report stored_report
    rw [if_pos hvalid]
    dsimp only
    by_cases h2 : 2 ≤ (history_append (s.history mmsi)
        { r with lat := round6 r.lat, lon := round6 r.lon }).length
    · rw [dif_pos h2]
      refine ⟨by simp, fun hl hge => rfl, fun hlt => absurd h2 (by omega)⟩
    · rw [dif_neg h2]
      exact ⟨by simp, fun hl hge => absurd hge h2, fun _ => rfl⟩

/-- Closed instance of C7: wholly-concrete eviction by seven appends of
the same report. -/
theorem claim_C7_history_witness :
    (history_append [] prevR).length ≤ 5 ∧
    List.foldl history_append []
      [prevR, prevR, prevR, prevR, prevR, prevR, prevR] =
      [prevR, prevR, prevR, prevR, prevR] :=
  ⟨claim_C7_history.1 [] prevR (by simp),
   claim_C7_history.2.2.1 prevR prevR prevR prevR prevR prevR prevR⟩

/-- C8: a report whose latitude is outside `[-90, 90]` or longitude
outside `[-180, 180]` is rejected before history insertion — the whole
state is unchanged and no anomaly evaluation runs; an accepted report
is stored with `lat` and `lon` rounded to 6 decimal places. -/
theorem claim_C8_validation :
    (∀ (dist : ℚ → ℚ → ℚ → ℚ → ℚ) (s : SysState) (mmsi : String)
        (r : Report) (now : ℚ),
      ¬(-90 ≤ r.lat ∧ r.lat ≤ 90 ∧ -180 ≤ r.lon ∧ r.lon ≤ 180) →
      process_report dist s mmsi r now =
        { state := s, evaluated := none, anomalies := [], alert := none }) ∧
    (∀ (dist : ℚ → ℚ → ℚ → ℚ → ℚ) (s : SysState) (mmsi : String)
        (r : Report) (now : ℚ),
      (-90 ≤ r.lat ∧ r.lat ≤ 90 ∧ -180 ≤ r.lon ∧ r.lon ≤ 180) →
      ((process_report dist s mmsi r now).state.history mmsi).getLast? =
        some { r with lat := round6 r.lat, lon := round6 r.lon }) := by
  constructor
  · intro dist s mmsi r now hbad
    unfold process_report
    rw [if_neg hbad]
  · intro dist s mmsi r now hvalid
    unfold process_report
    rw [if_pos hvalid]
    dsimp only
    by_cases h2 : 2 ≤ (history_append (s.history mmsi)
        { r with lat := round6 r.lat, lon := round6 r.lon }).length
    · rw [dif_pos h2]
      simp [history_append_getLast]
    · rw [dif_neg h2]
      simp [history_append_getLast]

/-- Closed instance of C8: `lat = 95` is rejected, a valid report is
stored rounded. -/
theorem claim_C8_validation_witness :
    process_report distZero initState vA badLatR 5000 =
      { state := initState, evaluated := none, anomalies := [],
        alert := none } ∧
    ((process_report distZero initState vA currR 5000).state.history vA).getLast? =
      some { currR with lat := round6 currR.lat, lon := round6 currR.lon } :=
  ⟨claim_C8_validation.1 distZero initState vA badLatR 5000
     (by norm_num [badLatR]),
   claim_C8_validation.2 distZero initState vA currR 5000
     (by norm_num [currR])⟩

/-- C10: processing a message for vessel `mmsi` never touches the
history or the cooldown entry of any other vessel, in every branch
(rejected, no anomalies, suppressed, alerted). -/
theorem claim_C10_frame (dist : ℚ → ℚ → ℚ → ℚ → ℚ) (s : SysState)
    (mmsi : String) (r : Report) (now : ℚ) (v : String) (hv : v ≠ mmsi) :
    (process_report dist s mmsi r now).state.history v = s.history v ∧
    (process_report dist s mmsi r now).state.lastAlert v = s.lastAlert v := by
  unfold process_report
  dsimp only
  split_ifs with hval h2
  · exact ⟨by simp [hv],
      check_for_anomalies_apply_ne dist s.lastAlert mmsi _ _ now v hv⟩
  · exact ⟨by simp [hv], rfl⟩
  · exact ⟨rfl, rfl⟩

/-- Closed instance of C10 at two distinct concrete vessel ids. -/
theorem claim_C10_frame_witness :
    (process_report distZero initState vA currR 5000).state.history vB =
      initState.history vB ∧
    (process_report distZero initState vA currR 5000).state.lastAlert vB =
      initState.lastAlert vB :=
  claim_C10_frame distZero initState vA currR 5000 vB (by simp [vA, vB])
